import Mathlib

/-!
Hello-world example server (`npm/examples/hello_world/index.js`)

A shallow embedding of the module

```
const app = express();
app.get('/', (req, res) => { res.send('Hello World!'); });
module.exports = app;
if (require.main === module) {
  const port = process.env.PORT || 3000;
  app.listen(port, () => { console.log(`listening on port ${port}.\n`); });
}
```

The module is a script over the API of a web framework; the framework objects
it touches (request, response, application, process) are modelled as plain
records, and every effect of the script is a field of `World`. The framework
answers a conditional request through `res.send`, so the response object is
linked to its request.
-/

namespace HelloWorld

/-! ## JavaScript values used by the script -/

/-- The JavaScript values that can flow into `port`: `undefined`, a number
literal, or a string (every defined entry of `process.env` is a string). -/
inductive JsValue where
  | undefined
  | num (n : Nat)
  | str (s : String)
  deriving DecidableEq, Repr

/-- JavaScript truthiness: `undefined`, `0` and `''` are falsy. -/
def JsValue.truthy : JsValue → Bool
  | .undefined => false
  | .num n => n != 0
  | .str s => s != ""

/-- The operator `a || b`: `a` when `a` is truthy, otherwise `b`. -/
def JsValue.or (a b : JsValue) : JsValue :=
  if a.truthy then a else b

/-- String conversion as done by a template literal `${v}`. -/
def JsValue.toStr : JsValue → String
  | .undefined => "undefined"
  | .num n => toString n
  | .str s => s

/-- The process environment, as far as the script reads it: `process.env.PORT`
is absent or a string. -/
structure Env where
  PORT : Option String
  deriving DecidableEq, Repr

/-- The expression `process.env.PORT`. -/
def Env.getPORT (env : Env) : JsValue :=
  match env.PORT with
  | none => .undefined
  | some s => .str s

/-! ## Framework objects -/

/-- HTTP request methods. -/
inductive Method where
  | GET | HEAD | POST | PUT | DELETE | PATCH | OPTIONS
  deriving DecidableEq, Repr

/-- The request object handed to a route handler: method, path name
(`req.path`, the URL without its query string), query string, headers, body. -/
structure Request where
  method : Method
  path : String
  query : String
  headers : List (String × String)
  body : String
  deriving DecidableEq, Repr

/-- Errors a handler can raise or hand to the framework. -/
inductive JsError where
  | headersSent
  | other (msg : String)
  deriving DecidableEq, Repr

/-! ### Conditional requests

The web framework is a dependency of the module, not part of the repository.
Its `res.send` compares the validators of a conditional request with the
entity tag of the response (the `req.fresh` check); the definitions below
follow that check. The response never carries a `Last-Modified` header, as
nothing in the module sets one. Releases of the framework differ in details
of the check; all agree that a request without validators is never fresh and
that a GET request whose only validator is `If-None-Match: *` is fresh. -/

/-- Header names are compared without regard to case (the platform presents
them in lower case); `target` is given in lower case. -/
def sameName (name target : String) : Bool :=
  name.data.map Char.toLower == target.data

/-- All values the request carries for a header, in order. -/
def Request.headerValues (req : Request) (name : String) : List String :=
  (req.headers.filter (fun h => sameName h.1 name)).map Prod.snd

/-- The value of a header of which only the first occurrence is kept
(`if-modified-since`). -/
def Request.headerFirst (req : Request) (name : String) : Option String :=
  (req.headerValues name).head?

/-- The value of a header whose occurrences are joined with ", "
(`if-none-match`, `cache-control`). -/
def Request.headerJoined (req : Request) (name : String) : Option String :=
  match req.headerValues name with
  | [] => none
  | v :: vs => some (", ".intercalate (v :: vs))

/-- Truthiness of a header value: defined and not the empty string. -/
def present : Option String → Bool
  | none => false
  | some s => s != ""

/-- A request is conditional when it carries a non-empty `If-None-Match` or
`If-Modified-Since` header. -/
def Request.conditional (req : Request) : Bool :=
  present (req.headerFirst "if-modified-since") || present (req.headerJoined "if-none-match")

/-- Splits a character sequence at its commas. -/
def splitCommas : List Char → List (List Char)
  | [] => [[]]
  | c :: cs =>
    match splitCommas cs with
    | [] => [[c]]
    | t :: ts => if c == ',' then [] :: t :: ts else (c :: t) :: ts

/-- Removes the characters satisfying `p` from both ends. -/
def trimBy (p : Char → Bool) (cs : List Char) : List Char :=
  ((cs.dropWhile p).reverse.dropWhile p).reverse

/-- The entity tags listed in an `If-None-Match` value: comma-separated, with
the spaces around each removed. -/
def parseTokenList (s : String) : List String :=
  (splitCommas s.data).map (fun t => String.mk (trimBy (fun c => c == ' ') t))

/-- Whether a `Cache-Control` value has the directive `no-cache`. -/
def noCache (cacheControl : Option String) : Bool :=
  match cacheControl with
  | none => false
  | some s => (splitCommas s.data).any (fun t => trimBy Char.isWhitespace t == "no-cache".data)

/-- Whether no tag of the `If-None-Match` value matches the entity tag of the
response (a tag matches also up to the weak marker `W/`). -/
def etagStale (noneMatch : String) (etag : Option String) : Bool :=
  match etag with
  | none => true
  | some e =>
    if e == "" then true
    else !(parseTokenList noneMatch).any (fun m => m == e || m == "W/" ++ e || "W/" ++ m == e)

/-- The freshness check of the framework on the request headers and the entity
tag of the response: an unconditional request is never fresh, nor one with
`Cache-Control: no-cache`; `If-None-Match` must be `*` or list the entity tag;
`If-Modified-Since` cannot be met without a `Last-Modified` header. -/
def conditionalFresh (req : Request) (etag : Option String) : Bool :=
  let modifiedSince := req.headerFirst "if-modified-since"
  let noneMatch := req.headerJoined "if-none-match"
  if !present modifiedSince && !present noneMatch then false
  else if noCache (req.headerJoined "cache-control") then false
  else if present noneMatch && noneMatch != some "*" && etagStale (noneMatch.getD "") etag then false
  else if present modifiedSince then false
  else true

/-- The response object of the web framework (spec section 3: "an HTTP
response object populated with a fixed string body and default status 200").
`req` is the request it answers (`res.req`), `etagFn` the entity-tag generator
of the framework (the framework is not in the repository, so the generator is
a parameter; `none` when it yields no tag), `etag` the `ETag` header, `payloads` the arguments of the calls
to `send`, in order, `content` the body written to the client, `finished`
whether the response has been sent. -/
structure Response where
  req : Request
  etagFn : String → Option String
  statusCode : Nat
  etag : Option String
  payloads : List String
  content : String
  finished : Bool

/-- Modelled from the spec: the response object the framework creates for an
incoming request, with the default status 200 and nothing sent yet. -/
def Response.fresh (etagFn : String → Option String) (req : Request) : Response :=
  { req := req, etagFn := etagFn, statusCode := 200, etag := none, payloads := [],
    content := "", finished := false }

/-- The getter `req.fresh` of the framework: only GET and HEAD requests, and
only while the status is 2xx or 304, can be fresh. -/
def Response.reqFresh (res : Response) : Bool :=
  (res.req.method == .GET || res.req.method == .HEAD)
    && ((200 ≤ res.statusCode && res.statusCode < 300) || res.statusCode == 304)
    && conditionalFresh res.req res.etag

/-- The framework method `res.send(body)` for a string body. It raises on a
response that is already finished. Otherwise it sets the `ETag` header from
the generator unless one is set, turns the status into 304 when the request is
fresh, drops the body for status 204 and 304 and for a HEAD request, and ends
the response. -/
def Response.send (res : Response) (body : String) : Except JsError Response :=
  if res.finished then .error .headersSent
  else
    let res1 := { res with etag := match res.etag with
                                   | some t => some t
                                   | none => res.etagFn body }
    let status := if res1.reqFresh then 304 else res1.statusCode
    let chunk := if status == 204 || status == 304 then "" else body
    let chunk := if res1.req.method == .HEAD then "" else chunk
    .ok { res1 with statusCode := status, payloads := res1.payloads ++ [body],
                    content := chunk, finished := true }

/-- What the client receives of a finished response: status, `ETag` header and
body. -/
structure Reply where
  statusCode : Nat
  etag : Option String
  body : String
  deriving DecidableEq, Repr

/-- The reply a finished response puts on the wire. -/
def Response.reply (res : Response) : Reply :=
  { statusCode := res.statusCode, etag := res.etag, body := res.content }

/-- Everything outside the request/response pair that code of the process can
read or write: the calls made to `app.listen`, the ports on which a listener
is open, and the messages passed to `console.log`. -/
structure World where
  listenCalls : List JsValue
  bound : List JsValue
  console : List String
  deriving DecidableEq, Repr

/-- The world at process start. -/
def World.init : World :=
  { listenCalls := [], bound := [], console := [] }

/-- The function `console.log(msg)`. -/
def consoleLog (msg : String) (w : World) : World :=
  { w with console := w.console ++ [msg] }

/-- A route handler `(req, res) => { ... }`: it may use the request, the
response and the world, and either returns normally with the response as it
left it or raises. -/
abbrev Handler := Request → Response → World → Except JsError Response × World

/-- One registered route. -/
structure Route where
  method : Method
  path : String
  handler : Handler

/-- The application object: its registered routes, in registration order. -/
structure App where
  routes : List Route

/-- The call `express()`: an application without routes. -/
def express : App :=
  { routes := [] }

/-- The call `app.get(path, handler)`: registers a route for method GET. -/
def App.get (app : App) (path : String) (handler : Handler) : App :=
  { app with routes := app.routes ++ [{ method := .GET, path := path, handler := handler }] }

/-- Modelled from the spec: which request methods a route registered for
`routeMethod` serves; the framework answers HEAD through a GET route. -/
def servesMethod (routeMethod reqMethod : Method) : Bool :=
  routeMethod == reqMethod || (routeMethod == .GET && reqMethod == .HEAD)

/-- Modelled from the spec: a route serves a request when the method is served
and the path name of the request is the path of the route (spec glossary: a
handler maps "an incoming HTTP request on a given path/method"). -/
def Route.serves (r : Route) (req : Request) : Bool :=
  servesMethod r.method req.method && r.path == req.path

/-- Modelled from the spec: the route the framework dispatches a request to,
the first registered one that serves it. -/
def App.lookup (app : App) (req : Request) : Option Route :=
  app.routes.find? (fun r => r.serves req)

/-- What a client observes for one request. -/
inductive Outcome where
  | responded (reply : Reply)
  | unhandled
  | failed (e : JsError)
  | pending
  deriving DecidableEq, Repr

/-- Modelled from the spec: the framework serving one request: the handler of
the matching route runs on a fresh response. `unhandled`: no route matches
(the fallback of the framework answers); `failed`: the handler raised;
`pending`: the handler returned without ending the response, so the client
never receives one. -/
def App.handle (app : App) (etagFn : String → Option String) (req : Request) (w : World) :
    Outcome × World :=
  match app.lookup req with
  | none => (.unhandled, w)
  | some r =>
    match r.handler req (Response.fresh etagFn req) w with
    | (.ok res, w1) => if res.finished then (.responded res.reply, w1) else (.pending, w1)
    | (.error e, w1) => (.failed e, w1)

/-- The framework serving a sequence of requests, one after the other. -/
def App.serve (app : App) (etagFn : String → Option String) :
    List Request → World → List Outcome × World
  | [], w => ([], w)
  | req :: rest, w =>
    let r1 := app.handle etagFn req w
    let r2 := app.serve etagFn rest r1.2
    (r1.1 :: r2.1, r2.2)

/-- Modelled from the spec: the call `app.listen(port, callback)`. The call is
recorded; `net port` says whether a listener can be opened on `port`, and if
so the port is bound and the callback runs once. -/
def App.listen (_app : App) (port : JsValue) (callback : World → World)
    (net : JsValue → Bool) (w : World) : World :=
  let w1 := { w with listenCalls := w.listenCalls ++ [port] }
  if net port then callback { w1 with bound := w1.bound ++ [port] } else w1

/-! ## The module `index.js` -/

/-- The handler of `index.js` lines 5-7: `(req, res) => { res.send('Hello World!'); }`. -/
def rootHandler : Handler :=
  fun _req res w => (res.send "Hello World!", w)

/-- The application of `index.js` lines 3-7. -/
def app : App :=
  express.get "/" rootHandler

/-- The constant `port` of `index.js` line 13: `process.env.PORT || 3000`. -/
def port (env : Env) : JsValue :=
  env.getPORT.or (.num 3000)

/-- The result of loading the module: the value of `module.exports` and the
world after the script has run. -/
structure Module where
  exports : App
  world : World

/-- Loading `index.js`. `isMain` is `require.main === module`, `env` the
process environment, `net` the ports on which a listener can be opened, `w`
the world before the load. -/
def load (isMain : Bool) (env : Env) (net : JsValue → Bool) (w : World) : Module :=
  let app := express
  let app := app.get "/" rootHandler
  let exports := app
  if isMain then
    let port := HelloWorld.port env
    { exports := exports,
      world := app.listen port (fun w1 => consoleLog ("listening on port " ++ port.toStr ++ ".\n") w1) net w }
  else
    { exports := exports, world := w }

/-! ## Requests to the root path -/

/-- A GET request to the root path with the given query string, headers and
body. -/
def getRoot (query : String) (headers : List (String × String)) (body : String) : Request :=
  { method := .GET, path := "/", query := query, headers := headers, body := body }

/-! ## Shared lemmas -/

theorem app_routes : app.routes = [{ method := .GET, path := "/", handler := rootHandler }] := rfl

theorem load_exports (isMain : Bool) (env : Env) (net : JsValue → Bool) (w : World) :
    (load isMain env net w).exports = app := by
  cases isMain <;> rfl

theorem lookup_root (req : Request) (hm : req.method = .GET) (hp : req.path = "/") :
    app.lookup req = some { method := .GET, path := "/", handler := rootHandler } := by
  simp [App.lookup, app_routes, Route.serves, servesMethod, hm, hp]

theorem lookup_other (req : Request)
    (h : req.path ≠ "/" ∨ (req.method ≠ .GET ∧ req.method ≠ .HEAD)) :
    app.lookup req = none := by
  rcases h with h | ⟨h1, h2⟩
  · have hp : ¬ ("/" = req.path) := fun e => h e.symm
    simp [App.lookup, app_routes, Route.serves, hp]
  · have h3 : ¬ (Method.GET = req.method) := fun e => h1 e.symm
    simp [App.lookup, app_routes, Route.serves, servesMethod, h2, h3]

theorem unconditional_not_fresh (req : Request) (etag : Option String)
    (hc : req.conditional = false) : conditionalFresh req etag = false := by
  unfold Request.conditional at hc
  simp only [Bool.or_eq_false_iff] at hc
  simp [conditionalFresh, hc.1, hc.2]

theorem handle_root_unconditional (etagFn : String → Option String) (req : Request) (w : World)
    (hm : req.method = .GET) (hp : req.path = "/") (hc : req.conditional = false) :
    app.handle etagFn req w
      = (.responded { statusCode := 200, etag := etagFn "Hello World!", body := "Hello World!" },
          w) := by
  simp [App.handle, lookup_root req hm hp, rootHandler, Response.send, Response.fresh,
    Response.reqFresh, Response.reply, unconditional_not_fresh req _ hc, hm]

theorem star_fresh (etag : Option String) :
    conditionalFresh (getRoot "" [("If-None-Match", "*")] "") etag = true := rfl

theorem handle_root_star (etagFn : String → Option String) (w : World) :
    app.handle etagFn (getRoot "" [("If-None-Match", "*")] "") w
      = (.responded { statusCode := 304, etag := etagFn "Hello World!", body := "" }, w) := by
  have hl := lookup_root (getRoot "" [("If-None-Match", "*")] "") rfl rfl
  have hm : (getRoot "" [("If-None-Match", "*")] "").method = .GET := rfl
  simp [App.handle, hl, rootHandler, Response.send, Response.fresh, Response.reqFresh,
    Response.reply, star_fresh, hm]

theorem handle_world (etagFn : String → Option String) (req : Request) (w : World) :
    (app.handle etagFn req w).2 = w := by
  unfold App.handle App.lookup
  rw [app_routes]
  by_cases h : Route.serves { method := .GET, path := "/", handler := rootHandler } req
  · simp [List.find?, h, rootHandler, Response.send, Response.fresh]
  · simp [List.find?, h]

theorem serve_world (etagFn : String → Option String) (reqs : List Request) (w : World) :
    (app.serve etagFn reqs w).2 = w := by
  induction reqs generalizing w with
  | nil => rfl
  | cons req rest ih => simp [App.serve, handle_world, ih]

/-! ## The root route -/

/-- C1 as stated fails: a GET request to "/" with the header `If-None-Match: *`
is answered with status 304, whatever the entity-tag generator. -/
theorem get_root_if_none_match_star_304 :
    (∀ etagFn : String → Option String,
        (app.handle etagFn (getRoot "" [("If-None-Match", "*")] "") World.init).1
          = .responded { statusCode := 304, etag := etagFn "Hello World!", body := "" })
      ∧ ¬ (∀ (etagFn : String → Option String) (req : Request) (w : World),
            req.method = .GET → req.path = "/" →
            ∃ r, (app.handle etagFn req w).1 = .responded r ∧ r.statusCode = 200) := by
  refine ⟨fun etagFn => by rw [handle_root_star], ?_⟩
  intro h
  obtain ⟨r, hr, h200⟩ :=
    h (fun _ => none) (getRoot "" [("If-None-Match", "*")] "") World.init rfl rfl
  rw [handle_root_star] at hr
  simp only [Outcome.responded.injEq] at hr
  subst hr
  simp at h200

/-- C1, amended: for every unconditional GET request to path "/" (no
`If-None-Match` and no `If-Modified-Since` header; whatever its other headers,
query string and body), and whether the module was imported or run as the
entry point, the exported application answers with a completed response (the
handler does not raise and does not leave the response pending) whose status
is 200. -/
theorem get_root_responds_200 (isMain : Bool) (env : Env) (net : JsValue → Bool)
    (w0 w : World) (etagFn : String → Option String) (req : Request)
    (hm : req.method = .GET) (hp : req.path = "/") (hc : req.conditional = false) :
    ∃ r, ((load isMain env net w0).exports.handle etagFn req w).1 = .responded r
      ∧ r.statusCode = 200 := by
  refine ⟨{ statusCode := 200, etag := etagFn "Hello World!", body := "Hello World!" }, ?_, rfl⟩
  rw [load_exports, handle_root_unconditional etagFn req w hm hp hc]

theorem get_root_responds_200_witness :
    (getRoot "a=1" [("x-id", "7")] "payload").method = .GET
      ∧ (getRoot "a=1" [("x-id", "7")] "payload").path = "/"
      ∧ (getRoot "a=1" [("x-id", "7")] "payload").conditional = false
      ∧ ∃ r, ((load false ⟨none⟩ (fun _ => false) World.init).exports.handle
            (fun body => some ("tag:" ++ body)) (getRoot "a=1" [("x-id", "7")] "payload")
            World.init).1 = .responded r
          ∧ r.statusCode = 200 :=
  ⟨rfl, rfl, by decide, get_root_responds_200 false ⟨none⟩ (fun _ => false) World.init World.init
    (fun body => some ("tag:" ++ body)) (getRoot "a=1" [("x-id", "7")] "payload") rfl rfl
    (by decide)⟩

/-- C2 as stated fails: a GET request to "/" with the header `If-None-Match: *`
is answered with an empty body, not "Hello World!". -/
theorem get_root_if_none_match_star_empty_body :
    (∀ etagFn : String → Option String,
        ∃ r, (app.handle etagFn (getRoot "" [("If-None-Match", "*")] "") World.init).1
            = .responded r ∧ r.body = "")
      ∧ ¬ (∀ (etagFn : String → Option String) (req : Request) (w : World),
            req.method = .GET → req.path = "/" →
            ∃ r, (app.handle etagFn req w).1 = .responded r ∧ r.body = "Hello World!") := by
  refine ⟨fun etagFn => ⟨_, by rw [handle_root_star], rfl⟩, ?_⟩
  intro h
  obtain ⟨r, hr, hb⟩ :=
    h (fun _ => none) (getRoot "" [("If-None-Match", "*")] "") World.init rfl rfl
  rw [handle_root_star] at hr
  simp only [Outcome.responded.injEq] at hr
  subst hr
  revert hb
  decide

/-- C2, amended: for every unconditional GET request to path "/" (no
`If-None-Match` and no `If-Modified-Since` header), the handler calls `send`
exactly once, with "Hello World!", and the body the client receives is exactly
that 12-character string, with nothing before or after it. -/
theorem get_root_body_hello_world (etagFn : String → Option String) (w : World) (req : Request)
    (hm : req.method = .GET) (hp : req.path = "/") (hc : req.conditional = false) :
    ∃ res, rootHandler req (Response.fresh etagFn req) w = (.ok res, w)
      ∧ res.payloads = ["Hello World!"]
      ∧ (app.handle etagFn req w).1 = .responded res.reply
      ∧ res.reply.body = "Hello World!"
      ∧ res.reply.body.length = 12 := by
  have h12 : "Hello World!".length = 12 := by decide
  rw [handle_root_unconditional etagFn req w hm hp hc]
  simp [rootHandler, Response.send, Response.fresh, Response.reqFresh, Response.reply,
    unconditional_not_fresh req _ hc, hm, h12]

theorem get_root_body_hello_world_witness :
    (getRoot "" [] "").method = .GET ∧ (getRoot "" [] "").path = "/"
      ∧ (getRoot "" [] "").conditional = false
      ∧ ∃ res, rootHandler (getRoot "" [] "")
            (Response.fresh (fun body => some ("tag:" ++ body)) (getRoot "" [] "")) World.init
            = (.ok res, World.init)
          ∧ res.payloads = ["Hello World!"]
          ∧ (app.handle (fun body => some ("tag:" ++ body)) (getRoot "" [] "") World.init).1
              = .responded res.reply
          ∧ res.reply.body = "Hello World!"
          ∧ res.reply.body.length = 12 :=
  ⟨rfl, rfl, by decide, get_root_body_hello_world (fun body => some ("tag:" ++ body)) World.init
    (getRoot "" [] "") rfl rfl (by decide)⟩

/-- C5 as stated fails: the answers to a GET "/" without headers and to a GET
"/" with `If-None-Match: *` differ (200 with the body, 304 without). -/
theorem root_responses_differ_on_if_none_match :
    (∀ etagFn : String → Option String,
        (app.handle etagFn (getRoot "" [] "") World.init).1
          ≠ (app.handle etagFn (getRoot "" [("If-None-Match", "*")] "") World.init).1)
      ∧ ¬ (∀ (etagFn : String → Option String) (q1 q2 : String)
            (h1 h2 : List (String × String)) (b1 b2 : String)
            (earlier1 earlier2 : List Request) (w1 w2 : World),
            (app.handle etagFn (getRoot q1 h1 b1) (app.serve etagFn earlier1 w1).2).1
              = (app.handle etagFn (getRoot q2 h2 b2) (app.serve etagFn earlier2 w2).2).1) := by
  have key : ∀ etagFn : String → Option String,
      (app.handle etagFn (getRoot "" [] "") World.init).1
        ≠ (app.handle etagFn (getRoot "" [("If-None-Match", "*")] "") World.init).1 := by
    intro etagFn
    rw [handle_root_star, handle_root_unconditional etagFn (getRoot "" [] "") _ rfl rfl (by decide)]
    simp
  exact ⟨key, fun h => key (fun _ => none)
    (h (fun _ => none) "" "" [] [("If-None-Match", "*")] "" "" [] [] World.init World.init)⟩

/-- C5, amended: the root handler uses no input and no state: its result on a
response is the same for any two requests and any two worlds, and it leaves
the world as it found it; the answers to any two unconditional GET requests to
"/" (no `If-None-Match` and no `If-Modified-Since` header; any query, other
headers and body) are identical, whatever requests were served before each of
them and whatever the world was; serving requests never changes the world. -/
theorem root_handler_ignores_input (etagFn : String → Option String) (q1 q2 : String)
    (h1 h2 : List (String × String)) (b1 b2 : String) (earlier1 earlier2 : List Request)
    (w1 w2 : World)
    (hc1 : (getRoot q1 h1 b1).conditional = false)
    (hc2 : (getRoot q2 h2 b2).conditional = false) :
    (∀ (req1 req2 : Request) (res : Response) (v1 v2 : World),
        (rootHandler req1 res v1).1 = (rootHandler req2 res v2).1)
      ∧ (∀ (req : Request) (res : Response) (v : World), (rootHandler req res v).2 = v)
      ∧ (app.handle etagFn (getRoot q1 h1 b1) (app.serve etagFn earlier1 w1).2).1
          = (app.handle etagFn (getRoot q2 h2 b2) (app.serve etagFn earlier2 w2).2).1
      ∧ (app.serve etagFn (earlier1 ++ [getRoot q1 h1 b1]) w1).2 = w1 := by
  refine ⟨fun _ _ _ _ _ => rfl, fun _ _ _ => rfl, ?_, serve_world _ _ _⟩
  rw [handle_root_unconditional _ _ _ rfl rfl hc1, handle_root_unconditional _ _ _ rfl rfl hc2]

theorem root_handler_ignores_input_witness :
    (getRoot "a=1" [("accept", "text/html")] "x").conditional = false
      ∧ (getRoot "" [] "").conditional = false
      ∧ (∀ (req1 req2 : Request) (res : Response) (v1 v2 : World),
          (rootHandler req1 res v1).1 = (rootHandler req2 res v2).1)
      ∧ (∀ (req : Request) (res : Response) (v : World), (rootHandler req res v).2 = v)
      ∧ (app.handle (fun _ => none) (getRoot "a=1" [("accept", "text/html")] "x")
            (app.serve (fun _ => none) [getRoot "" [("If-None-Match", "*")] ""] World.init).2).1
          = (app.handle (fun _ => none) (getRoot "" [] "")
              (app.serve (fun _ => none) [] World.init).2).1
      ∧ (app.serve (fun _ => none)
            ([getRoot "" [("If-None-Match", "*")] ""] ++ [getRoot "a=1" [("accept", "text/html")] "x"])
            World.init).2 = World.init :=
  ⟨by decide, by decide, root_handler_ignores_input (fun _ => none) "a=1" ""
    [("accept", "text/html")] [] "x" "" [getRoot "" [("If-None-Match", "*")] ""] []
    World.init World.init (by decide) (by decide)⟩

/-- C6: the root handler cannot fail: for every request, on the response the
framework hands it, it returns normally with the response sent, and no request
at all makes the application report a handler failure. -/
theorem root_handler_never_fails (etagFn : String → Option String) (req : Request) (w : World) :
    (∃ res, rootHandler req (Response.fresh etagFn req) w = (.ok res, w) ∧ res.finished = true
        ∧ res.payloads = ["Hello World!"])
      ∧ (∀ e, (app.handle etagFn req w).1 ≠ .failed e) := by
  refine ⟨?_, ?_⟩
  · simp [rootHandler, Response.send, Response.fresh]
  · intro e
    unfold App.handle App.lookup
    rw [app_routes]
    by_cases h : Route.serves { method := .GET, path := "/", handler := rootHandler } req
    · simp [List.find?, h, rootHandler, Response.send, Response.fresh]
    · simp [List.find?, h]

/-- C10: the application has exactly one route, for method GET and path "/",
and a request whose path is not "/" or whose method is neither GET nor HEAD
(the methods a GET route serves) is dispatched to no route, so the handler is
not run for it. -/
theorem only_root_route (etagFn : String → Option String) (req : Request) (w : World)
    (h : req.path ≠ "/" ∨ (req.method ≠ .GET ∧ req.method ≠ .HEAD)) :
    app.routes.length = 1
      ∧ app.routes.map (fun r => (r.method, r.path)) = [(Method.GET, "/")]
      ∧ app.lookup req = none
      ∧ app.handle etagFn req w = (.unhandled, w) := by
  refine ⟨rfl, rfl, lookup_other req h, ?_⟩
  simp [App.handle, lookup_other req h]

theorem only_root_route_witness :
    (({ method := .POST, path := "/", query := "", headers := [], body := "" } : Request).path ≠ "/"
        ∨ (({ method := .POST, path := "/", query := "", headers := [], body := "" } : Request).method
              ≠ .GET
            ∧ ({ method := .POST, path := "/", query := "", headers := [], body := "" } : Request).method
              ≠ .HEAD))
      ∧ app.routes.length = 1
      ∧ app.routes.map (fun r => (r.method, r.path)) = [(Method.GET, "/")]
      ∧ app.lookup { method := .POST, path := "/", query := "", headers := [], body := "" } = none
      ∧ app.handle (fun _ => none)
          { method := .POST, path := "/", query := "", headers := [], body := "" }
          World.init = (.unhandled, World.init) :=
  ⟨Or.inr ⟨by decide, by decide⟩,
    only_root_route (fun _ => none)
      { method := .POST, path := "/", query := "", headers := [], body := "" }
      World.init (Or.inr ⟨by decide, by decide⟩)⟩

/-! ## The conditional start of the server -/

/-- C3: when the module is imported (`require.main` is another module), loading
it leaves the world untouched for every value of PORT: `app.listen` is not
called, no port is bound and nothing is logged. -/
theorem import_opens_no_listener (env : Env) (net : JsValue → Bool) (w : World) :
    (load false env net w).world = w
      ∧ (load false env net World.init).world.listenCalls = []
      ∧ (load false env net World.init).world.bound = []
      ∧ (load false env net World.init).world.console = [] :=
  ⟨rfl, rfl, rfl, rfl⟩

/-- C4 as stated fails: with PORT set to the empty string the port passed to
`app.listen` is 3000, not the value of PORT. -/
theorem listen_port_as_stated_fails :
    ¬ (∀ (env : Env) (net : JsValue → Bool),
        (load true env net World.init).world.listenCalls
          = [match env.PORT with
             | none => JsValue.num 3000
             | some s => JsValue.str s]) := by
  intro h
  have h1 := h ⟨some ""⟩ (fun _ => true)
  revert h1
  decide

/-- C4, amended: when the module is run as the entry point, `app.listen` is
called exactly once, with 3000 if PORT is unset or the empty string, and
otherwise with the value of PORT. -/
theorem listen_called_once_with_port (env : Env) (net : JsValue → Bool) :
    (load true env net World.init).world.listenCalls
      = [match env.PORT with
         | none => JsValue.num 3000
         | some s => if s = "" then JsValue.num 3000 else JsValue.str s] := by
  obtain ⟨p⟩ := env
  cases p with
  | none =>
    by_cases hn : net (JsValue.num 3000) <;>
      simp [load, port, App.listen, Env.getPORT, JsValue.or, JsValue.truthy, World.init,
        consoleLog, hn]
  | some s =>
    by_cases hs : s = ""
    · by_cases hn : net (JsValue.num 3000) <;>
        simp [load, port, App.listen, Env.getPORT, JsValue.or, JsValue.truthy, World.init,
          consoleLog, hn, hs]
    · by_cases hn : net (JsValue.str s) <;>
        simp [load, port, App.listen, Env.getPORT, JsValue.or, JsValue.truthy, World.init,
          consoleLog, hn, hs]

/-- C7: when the module is run as the entry point and the listener has started,
the port is passed to `app.listen` once and exactly one message is logged:
"listening on port ", the same port value, ".", a newline - that is
"listening on port 3000.\n" when PORT is unset or empty and otherwise
"listening on port " followed by the value of PORT and ".\n". When the module
is imported, nothing is logged. -/
theorem startup_message_logged_once (env : Env) (net : JsValue → Bool)
    (hstart : net (port env) = true) :
    (∃ p, (load true env net World.init).world.listenCalls = [p]
        ∧ (load true env net World.init).world.console
            = ["listening on port " ++ p.toStr ++ ".\n"])
      ∧ (load true env net World.init).world.console
          = [match env.PORT with
             | none => "listening on port 3000.\n"
             | some s =>
               if s = "" then "listening on port 3000.\n"
               else "listening on port " ++ s ++ ".\n"]
      ∧ JsValue.toStr (.num 3000) = "3000"
      ∧ (load false env net World.init).world.console = [] := by
  have h3000 : JsValue.toStr (.num 3000) = "3000" := by decide
  have hmsg : "listening on port " ++ "3000" ++ ".\n" = "listening on port 3000.\n" := by decide
  have hcon : (load true env net World.init).world.console
      = ["listening on port " ++ (port env).toStr ++ ".\n"] := by
    simp [load, App.listen, World.init, consoleLog, hstart]
  have hlis : (load true env net World.init).world.listenCalls = [port env] := by
    simp [load, App.listen, World.init, consoleLog, hstart]
  refine ⟨⟨port env, hlis, hcon⟩, ?_, h3000, rfl⟩
  rw [hcon]
  obtain ⟨p⟩ := env
  cases p with
  | none =>
    have hp : port ⟨none⟩ = .num 3000 := by decide
    rw [hp, h3000, hmsg]
  | some s =>
    by_cases hs : s = ""
    · subst hs
      have hp : port ⟨some ""⟩ = .num 3000 := by decide
      rw [hp, h3000, hmsg]
      simp
    · have hp : port ⟨some s⟩ = .str s := by
        simp [port, Env.getPORT, JsValue.or, JsValue.truthy, hs]
      rw [hp]
      simp [JsValue.toStr, hs]

theorem startup_message_logged_once_witness :
    (fun _ : JsValue => true) (port ⟨some "8080"⟩) = true
      ∧ (∃ p, (load true ⟨some "8080"⟩ (fun _ => true) World.init).world.listenCalls = [p]
          ∧ (load true ⟨some "8080"⟩ (fun _ => true) World.init).world.console
              = ["listening on port " ++ p.toStr ++ ".\n"])
      ∧ (load true ⟨some "8080"⟩ (fun _ => true) World.init).world.console
          = ["listening on port 8080.\n"]
      ∧ JsValue.toStr (.num 3000) = "3000"
      ∧ (load false ⟨some "8080"⟩ (fun _ => true) World.init).world.console = [] :=
  ⟨rfl, startup_message_logged_once ⟨some "8080"⟩ (fun _ => true) rfl⟩

/-- C8: the value the module exports is the same application object whether
the module is imported or run as the entry point, for any environment and
world: the application with the single route GET "/" bound to the root
handler. -/
theorem exports_same_app (env1 env2 : Env) (net1 net2 : JsValue → Bool) (w1 w2 : World) :
    (load true env1 net1 w1).exports = (load false env2 net2 w2).exports
      ∧ (load true env1 net1 w1).exports = app
      ∧ (load true env1 net1 w1).exports.routes
          = [{ method := .GET, path := "/", handler := rootHandler }] :=
  ⟨rfl, rfl, rfl⟩

/-- C9: port selection treats a falsy PORT as unset: with PORT unset or set to
the empty string the port is 3000, and with PORT any non-empty string the port
is that string, unchanged and not parsed - so "0" and "abc" pass through. -/
theorem port_falsy_is_unset (s : String) (hs : s ≠ "") :
    port ⟨none⟩ = .num 3000
      ∧ port ⟨some ""⟩ = port ⟨none⟩
      ∧ port ⟨some s⟩ = .str s
      ∧ port ⟨some "0"⟩ = .str "0"
      ∧ port ⟨some "abc"⟩ = .str "abc" := by
  refine ⟨by decide, by decide, ?_, by decide, by decide⟩
  simp [port, Env.getPORT, JsValue.or, JsValue.truthy, hs]

theorem port_falsy_is_unset_witness :
    "3000" ≠ ""
      ∧ port ⟨none⟩ = .num 3000
      ∧ port ⟨some ""⟩ = port ⟨none⟩
      ∧ port ⟨some "3000"⟩ = .str "3000"
      ∧ port ⟨some "0"⟩ = .str "0"
      ∧ port ⟨some "abc"⟩ = .str "abc" :=
  ⟨by decide, port_falsy_is_unset "3000" (by decide)⟩

end HelloWorld
